import Mathlib

/-
  Verification of the core of the CORSABOTTEST subscription-key backend.

  This file gives a shallow embedding of the parts of the code that the
  frozen claims are about, and settles each claim against it.

  Conventions for the embedding:
  - datetimes are absolute instants, modelled as Int (seconds since an
    arbitrary epoch) except where a definition notes minutes;
    timezone conversions (astimezone, replace tzinfo) preserve the
    instant, so they are the identity in this model;
  - the SQL store is modelled as lists of rows; primary-key lookups are
    find? on the id field;
  - outbound side effects (operator messages, user messages, panel HTTP
    calls) are recorded in effect lists.
-/

namespace Corsa

/-- Payment status enum from src/database/models.py (PaymentStatus). -/
inductive PaymentStatus where
  | pending
  | success
  | failed
  | error
deriving DecidableEq, Repr

/-- A row of the payments table (PaymentsOrm, src/database/models.py).
Fields not used by any claim (label, amount, url, updated_at) are omitted;
label is only used for logging in the relevant code paths. -/
structure Payment where
  id : Nat
  user_id : Nat
  tariff_id : Nat
  key_id : Option Nat
  device : String
  promo : Option Nat
  status : PaymentStatus
  key_issued_at : Option Int
  created_at : Int
deriving DecidableEq, Repr

/-- A row of the tariffs table (TariffsOrm). -/
structure Tariff where
  id : Nat
  days : Int
deriving DecidableEq, Repr

/-- A row of the keys table (KeysOrm, src/database/models.py).
The payment_id column is nullable with no default, active defaults to
true and alerted to false. -/
structure Key where
  id : Nat
  user_id : Nat
  server_id : Nat
  key : String
  device : String
  payment_id : Option Nat
  active : Bool
  alerted : Bool
  start : Int
  finish : Int
  name : String
  is_test : Bool
deriving DecidableEq, Repr

/-! ## C1: the pending-payments poll (src/services/scheduler.py, process_pending_payment) -/

/-- The externally visible action process_pending_payment takes on one
pending payment. -/
inductive PendingAction where
  | markSuccessAndIssue
  | issueUnconfirmed
  | deleteExpired
  | stillPending
deriving DecidableEq, Repr

/-- Embeds process_pending_payment (src/services/scheduler.py lines 54-99).
Times are seconds. The function first asks the provider; if confirmed it
marks success and issues. Otherwise the source contains TWO copies of the
same age check (lines 81 and 95): the first copy calls
process_success_payment and returns, the second copy (which would call
delete_expired_payment) repeats the identical condition and is therefore
unreachable when the condition holds. -/
def process_pending_payment (is_payment_success : Bool) (created_at now : Int) :
    PendingAction :=
  if is_payment_success then
    PendingAction.markSuccessAndIssue
  else if created_at < now - 30 * 60 then
    PendingAction.issueUnconfirmed
  else if created_at < now - 30 * 60 then
    PendingAction.deleteExpired
  else
    PendingAction.stillPending

/-! ## C2: add_new_key and the payment_id linkage (src/database/crud/keys.py, src/services/keys_manager.py) -/

/-- The keyword parameters accepted by add_new_key
(src/database/crud/keys.py lines 29-37): the signature has no payment_id
parameter and no kwargs catch-all. -/
def add_new_key_accepted_params : List String :=
  ["user_id", "server_id", "key", "device", "finish", "name", "is_test"]

/-- The keyword arguments create_key passes to add_new_key
(src/services/keys_manager.py lines 76-84), including payment_id. -/
def create_key_passed_kwargs : List String :=
  ["user_id", "server_id", "key", "device", "finish", "name", "is_test",
   "payment_id"]

/-- Python keyword-call compatibility for a function without a kwargs
catch-all: the call succeeds only if every passed keyword is an accepted
parameter name; otherwise the call raises TypeError. -/
def py_kwcall_ok (accepted passed : List String) : Bool :=
  passed.all (fun a => accepted.contains a)

/-- Embeds the KeysOrm row constructed by add_new_key
(src/database/crud/keys.py lines 41-50). The constructor sets user_id,
server_id, key, device, start, finish, name and is_test; payment_id is
never set, so the column keeps its null default; active and alerted take
their column defaults (true and false). The DB-assigned autoincrement id
is a parameter. -/
def add_new_key (new_id : Nat) (user_id server_id : Nat) (key device : String)
    (finish : Int) (name : String) (is_test : Bool) (now : Int) : Key :=
  { id := new_id
    user_id := user_id
    server_id := server_id
    key := key
    device := device
    payment_id := none
    active := true
    alerted := false
    start := now
    finish := finish
    name := name
    is_test := is_test }

/-! ## C3: planned_at for key-based notification rules (src/database/crud/notifications.py) -/

/-- NotificationType enum (src/database/models.py). -/
inductive NotificationType where
  | trial_expiring_soon
  | trial_expired
  | paid_expiring_soon
  | paid_expired
  | new_user_no_keys
  | global_weekly
deriving DecidableEq, Repr

/-- Membership in REMINDER_RULE_TYPES (src/database/crud/notifications.py). -/
def isReminderType : NotificationType → Bool
  | NotificationType.trial_expiring_soon => true
  | NotificationType.paid_expiring_soon => true
  | _ => false

/-- Membership in FINISH_RULE_TYPES (src/database/crud/notifications.py). -/
def isFinishType : NotificationType → Bool
  | NotificationType.trial_expired => true
  | NotificationType.paid_expired => true
  | _ => false

/-- A row of notification_rules (NotificationRule, src/database/models.py);
only the fields the claims use. -/
structure NotificationRule where
  id : Nat
  type : NotificationType
  offset_days : Option Int
  offset_hours : Option Int
  is_active : Bool
deriving DecidableEq, Repr

/-- Embeds _calc_offset (src/services/notifications.py lines 105-111):
offset_days times 24h plus offset_hours times 1h, None counted as zero.
Times are minutes, so a day is 1440 and an hour 60. -/
def calc_offset (r : NotificationRule) : Int :=
  (r.offset_days.getD 0) * 1440 + (r.offset_hours.getD 0) * 60

/-- Embeds _calc_planned_at_for_key (src/database/crud/notifications.py
lines 106-130). Times are minutes. For reminder types with finish already
passed, and for finish types with finish strictly in the past, the key is
skipped. For finish (expired) types the source sets planned_local to
finish_msk; only the reminder branch subtracts the offset (computed
inline with the same formula as _calc_offset) and clamps to now. -/
def calc_planned_at_for_key (r : NotificationRule) (finish now : Int) :
    Option Int :=
  if finish ≤ now ∧ isReminderType r.type then
    none
  else if finish < now ∧ isFinishType r.type then
    none
  else if isFinishType r.type then
    some finish
  else
    let offset := (r.offset_days.getD 0) * 1440 + (r.offset_hours.getD 0) * 60
    let planned := finish - offset
    some (if planned < now then now else planned)

/-! ## C4 and C5: the issue pipeline (src/services/keys_manager.py, process_success_payment) -/

/-- Outbound side effects of the issue pipeline that the claims mention. -/
inductive Eff where
  | adminMsg
  | userMsg (uid : Nat)
deriving DecidableEq, Repr

/-- The store state the issue pipeline reads and writes. -/
structure St where
  payments : List Payment
  keys : List Key
  tariffs : List Tariff
deriving DecidableEq, Repr

/-- Primary-key lookup on payments (session.get on PaymentsOrm). -/
def getPayment (st : St) (pid : Nat) : Option Payment :=
  st.payments.find? (fun q => q.id = pid)

/-- Embeds is_key_issued (src/database/crud/payments.py lines 79-90): if
the passed object already has key_issued_at set, report true; otherwise
look the payment up in the store. -/
def is_key_issued (st : St) (p : Payment) : Bool :=
  if p.key_issued_at.isSome then
    true
  else
    match getPayment st p.id with
    | some q => q.key_issued_at.isSome
    | none => false

/-- Embeds get_key_by_id (src/database/crud/keys.py lines 80-86). -/
def get_key_by_id (keys : List Key) (kid : Nat) : Option Key :=
  keys.find? (fun k => k.id = kid)

/-- Modelled from the spec: get_key_by_payment_id is imported and called
by src/services/keys_manager.py but is absent from
src/database/crud/keys.py in this source tree. The spec describes it as
the lookup of the (at most one) Key whose payment_id equals the given
payment id. -/
def get_key_by_payment_id (keys : List Key) (pid : Nat) : Option Key :=
  keys.find? (fun k => k.payment_id = some pid)

/-- Embeds get_tariff (src/database/crud/tariffs.py). -/
def get_tariff (st : St) (tid : Nat) : Option Tariff :=
  st.tariffs.find? (fun t => t.id = tid)

/-- Embeds mark_payment_as_error (src/database/crud/payments.py lines
53-63): sets status to error and updated_at; the reason is only written
to the log, never persisted on the row. -/
def mark_payment_as_error (st : St) (pid : Nat) (reason : String) : St :=
  { st with
    payments := st.payments.map (fun q =>
      if q.id = pid then { q with status := PaymentStatus.error } else q) }

/-- Embeds mark_key_issued (src/database/crud/payments.py lines 66-76):
sets key_issued_at to now and, when a key id is given, key_id. -/
def mark_key_issued (st : St) (pid : Nat) (kid : Option Nat) (now : Int) : St :=
  { st with
    payments := st.payments.map (fun q =>
      if q.id = pid then
        { q with
          key_issued_at := some now
          key_id := match kid with | some k => some k | none => q.key_id }
      else q) }

/-- Embeds get_success_payments_without_key (src/database/crud/payments.py
lines 93-102): all payments with status success and key_issued_at null;
this is the selection the recovery tick iterates over. -/
def get_success_payments_without_key (st : St) : List Payment :=
  st.payments.filter (fun q =>
    decide (q.status = PaymentStatus.success ∧ q.key_issued_at = none))

/-- Result of one run of process_success_payment. done means the function
returned, with the new store state and the recorded effects. provision
means control reached the create-or-prolong section (line 328 onwards of
src/services/keys_manager.py) carrying the tariff, the resolved device
and the payment key_id; the claims under verification are all settled
before that section. -/
inductive IssueResult where
  | done (st : St) (effs : List Eff)
  | provision (tariff : Tariff) (device : String) (key_id : Option Nat)
deriving DecidableEq, Repr

/-- Embeds process_success_payment (src/services/keys_manager.py lines
226-327), the part before the create-or-prolong section:
1. if is_key_issued, return at once (lines 234-237);
2. if payment.key_id is set, the key exists and the key found by
   payment_id is that same key, resend the two user messages and
   mark_key_issued (lines 241-263); a key_id whose key is missing or not
   linked to this payment falls through;
3. if a key exists with payment_id equal to this payment, resend it and
   mark_key_issued (lines 277-293);
4. if the tariff is missing, mark_payment_as_error, message the
   operators and return (lines 300-310);
5. resolve device, falling back to the existing key device or unknown
   (lines 312-326), and continue to the create-or-prolong section. -/
def process_success_payment (st : St) (p : Payment) (now : Int) : IssueResult :=
  if is_key_issued st p then
    IssueResult.done st []
  else
    let resendByKeyId : Option Key :=
      match p.key_id with
      | some kid =>
        match get_key_by_id st.keys kid with
        | some k =>
          match get_key_by_payment_id st.keys p.id with
          | some ek => if ek.id = k.id then some k else none
          | none => none
        | none => none
      | none => none
    match resendByKeyId with
    | some k =>
      IssueResult.done (mark_key_issued st p.id (some k.id) now)
        [Eff.userMsg p.user_id, Eff.userMsg p.user_id]
    | none =>
      match get_key_by_payment_id st.keys p.id with
      | some ek =>
        IssueResult.done (mark_key_issued st p.id (some ek.id) now)
          [Eff.userMsg p.user_id, Eff.userMsg p.user_id]
      | none =>
        match get_tariff st p.tariff_id with
        | none =>
          IssueResult.done (mark_payment_as_error st p.id "tariff not found")
            [Eff.adminMsg]
        | some t =>
          let device :=
            if p.device.trim = "" then
              match p.key_id with
              | some kid =>
                match get_key_by_id st.keys kid with
                | some k => if k.device ≠ "" then k.device else "unknown"
                | none => "unknown"
              | none => "unknown"
            else p.device
          IssueResult.provision t device p.key_id

/-! ## C6: schedule deduplication (src/database/models.py, src/database/crud/notifications.py) -/

/-- NotificationScheduleStatus enum (src/database/models.py). -/
inductive SchedStatus where
  | planned
  | sent
  | skipped
  | cancelled
  | error
deriving DecidableEq, Repr

/-- A row of user_notification_schedules (UserNotificationSchedule,
src/database/models.py lines 214-231). The table carries the unique
constraint uq_notification_schedule_dedup on dedup_key. -/
structure ScheduleRow where
  user_id : Nat
  rule_id : Nat
  planned_at : Int
  dedup_key : String
  status : SchedStatus
deriving DecidableEq, Repr

/-- The schedule-table invariant: at most one row per dedup_key value. -/
def uniqueDedup (rows : List ScheduleRow) : Prop :=
  rows.Pairwise (fun a b => a.dedup_key ≠ b.dedup_key)

instance (rows : List ScheduleRow) : Decidable (uniqueDedup rows) := by
  unfold uniqueDedup
  infer_instance

/-- Embeds upsert_schedule (src/database/crud/notifications.py lines
398-417): INSERT .. ON CONFLICT (dedup_key) DO NOTHING. Under the unique
constraint, the insert is skipped exactly when a row with this dedup_key
already exists; the new row gets status planned. -/
def upsert_schedule (rows : List ScheduleRow) (user_id rule_id : Nat)
    (planned_at : Int) (dedup_key : String) : List ScheduleRow :=
  if rows.any (fun row => row.dedup_key = dedup_key) then
    rows
  else
    rows ++ [{ user_id := user_id, rule_id := rule_id,
               planned_at := planned_at, dedup_key := dedup_key,
               status := SchedStatus.planned }]

/-- Embeds bulk_upsert_schedule (src/database/crud/notifications.py lines
420-437): a multi-row INSERT .. ON CONFLICT (dedup_key) DO NOTHING.
PostgreSQL also skips a later row of the same statement that conflicts
with an earlier one, so the statement acts as a left fold of single
upserts. -/
def bulk_upsert_schedule (rows : List ScheduleRow)
    (entries : List (Nat × Nat × Int × String)) : List ScheduleRow :=
  entries.foldl
    (fun acc e => upsert_schedule acc e.1 e.2.1 e.2.2.1 e.2.2.2) rows

/-! ## C7: panel host normalization (src/services/keys.py, X3UI) -/

/-- Scheme characters accepted by the Python urllib parser
(urllib/parse.py, scheme_chars). -/
def schemeChars : List Char :=
  "abcdefghijklmnopqrstuvwxyzABCDEFGHIJKLMNOPQRSTUVWXYZ0123456789+-.".toList

/-- The scheme, netloc and path components of a parsed URL. Query and
fragment are stripped during parsing and not needed by the client. -/
structure UrlParts where
  scheme : String
  netloc : String
  path : String
deriving DecidableEq, Repr

/-- Splits the netloc from the rest at the earliest of the three
delimiters, as urllib _splitnetloc does. -/
def splitNetloc (cs : List Char) : List Char × List Char :=
  let idx := cs.findIdx (fun c => c == '/' || c == '?' || c == '#')
  (cs.take idx, cs.drop idx)

/-- Splits at the first occurrence of the delimiter, dropping it, as a
Python split with maxsplit one does for the leading part. -/
def splitFirst (delim : Char) (cs : List Char) : List Char × List Char :=
  let i := cs.findIdx (fun c => c == delim)
  (cs.take i, cs.drop (i + 1))

/-- Embeds urllib.parse.urlsplit (CPython 3.11 urllib/parse.py,
urlsplit): strip unsafe bytes; recognise a scheme only when a colon
follows a leading ASCII letter and every character before it is a scheme
character; parse a netloc only after a double slash, up to the first
slash, question mark or hash; then split off fragment and query. The
NFKC netloc check only applies to non-ASCII netlocs and is omitted. -/
def py_urlsplit (url : String) : UrlParts :=
  let cs := url.toList.filter (fun c => c != '\t' && c != '\r' && c != '\n')
  let i := cs.findIdx (fun c => c == ':')
  let headAlpha := match cs.head? with
    | some c => c.isAlpha
    | none => false
  let schemeRest : List Char × List Char :=
    if decide (0 < i) && decide (i < cs.length) && headAlpha &&
        (cs.take i).all (fun c => schemeChars.contains c) then
      ((cs.take i).map Char.toLower, cs.drop (i + 1))
    else
      ([], cs)
  let netlocRest : List Char × List Char :=
    if schemeRest.2.take 2 = ['/', '/'] then
      splitNetloc (schemeRest.2.drop 2)
    else
      ([], schemeRest.2)
  let afterFrag :=
    if netlocRest.2.contains '#' then (splitFirst '#' netlocRest.2).1
    else netlocRest.2
  let path :=
    if afterFrag.contains '?' then (splitFirst '?' afterFrag).1
    else afterFrag
  { scheme := String.mk schemeRest.1
    netloc := String.mk netlocRest.1
    path := String.mk path }

/-- Embeds urllib.parse.urlparse on top of urlsplit: when the path holds
a semicolon, _splitparams removes the params from the last path segment. -/
def py_urlparse (url : String) : UrlParts :=
  let u := py_urlsplit url
  let cs := u.path.toList
  if cs.contains ';' then
    let newPath :=
      if cs.contains '/' then
        let lastSlash := cs.length - 1 - (cs.reverse.findIdx (fun c => c == '/'))
        let after := cs.drop lastSlash
        if after.contains ';' then
          cs.take (lastSlash + after.findIdx (fun c => c == ';'))
        else cs
      else
        cs.take (cs.findIdx (fun c => c == ';'))
    { u with path := String.mk newPath }
  else
    u

/-- Removes leading and trailing whitespace, as the Python strip with no
arguments does on ASCII input. -/
def pyStrip (s : String) : String :=
  String.mk
    (((s.toList.dropWhile Char.isWhitespace).reverse.dropWhile
        Char.isWhitespace).reverse)

/-- Tests for a trailing slash, as the Python endswith does. -/
def endsWithSlash (s : String) : Bool :=
  s.toList.getLast? == some '/'

/-- Removes trailing slashes, as the Python rstrip with a slash does. -/
def rstripSlashes (s : String) : String :=
  String.mk ((s.toList.reverse.dropWhile (fun c => c == '/')).reverse)

/-- Removes leading slashes, as the Python lstrip with a slash does. -/
def lstripSlashes (s : String) : String :=
  String.mk (s.toList.dropWhile (fun c => c == '/'))

/-- Embeds X3UI._normalize_host (src/services/keys.py lines 37-57): an
empty host gives None; otherwise strip, parse, default the scheme to
https when missing, reject an empty netloc, and rebuild the base as
scheme, netloc and the path with trailing slashes removed. -/
def normalize_host (host : Option String) : Option String :=
  match host with
  | none => none
  | some h0 =>
    if h0 = "" then
      none
    else
      let h1 := pyStrip h0
      let p0 := py_urlparse h1
      let p := if p0.scheme = "" then py_urlparse ("https://" ++ h1) else p0
      if p.netloc = "" then
        none
      else
        let path := if p.path = "" then "" else rstripSlashes p.path
        some (p.scheme ++ "://" ++ p.netloc ++ path)

/-- Embeds urllib.parse.urljoin restricted to how _build_url uses it: the
base always ends with a slash and the second argument is a relative path
with no leading slash, no scheme and no dot segments, so the join is
concatenation. -/
def pyUrljoin (base rel : String) : String :=
  if rel = "" then base else base ++ rel

/-- Embeds X3UI._build_url (src/services/keys.py lines 59-63): with no
configured host it raises ValueError before anything else; otherwise it
joins the base (with a trailing slash ensured) and the path with leading
slashes removed. -/
def build_url (host : Option String) (path : String) : Except String String :=
  match host with
  | none => Except.error "Server host is not configured"
  | some h =>
    let base := if endsWithSlash h then h else h ++ "/"
    Except.ok (pyUrljoin base (lstripSlashes path))

/-- Embeds X3UI._request (src/services/keys.py lines 65-87) up to the
network boundary: the URL is built first, so when _build_url raises no
network request is made; otherwise one request to the built URL is
issued. The second component records the network requests performed. -/
def x3_request (host : Option String) (path : String) :
    Except String String × List String :=
  match build_url host path with
  | Except.error e => (Except.error e, [])
  | Except.ok url => (Except.ok url, [url])

/-! ## C8 and C10: prolong_key and update_key (src/services/keys_manager.py, src/database/crud/keys.py) -/

/-- Embeds the key mutation performed by prolong_key
(src/services/keys_manager.py lines 120-141) before update_key persists
it. Times are seconds, add_days is the tariff day count. finish becomes
max of the old finish and now, plus the added days; the alerted flag is
cleared when set; the active flag is only re-assigned to true when it
already is true, so it is written exactly as the source writes it. -/
def prolong_key_update (k : Key) (now : Int) (add_days : Int) : Key :=
  { k with
    finish := max k.finish now + add_days * 86400
    alerted := if k.alerted then false else k.alerted
    active := if k.active then true else k.active }

/-- Embeds update_key (src/database/crud/keys.py lines 108-132): look the
key up by primary key; when absent, return with no change and without
calling sync_user_key_rules; when present, copy the alerted, active,
finish and server_id fields onto the stored row and then resynchronise
the notification schedules. The Bool records whether
sync_user_key_rules was invoked. -/
def update_key (keys : List Key) (k : Key) : List Key × Bool :=
  match keys.find? (fun ex => ex.id = k.id) with
  | none => (keys, false)
  | some _ =>
    (keys.map (fun ex =>
      if ex.id = k.id then
        { ex with
          alerted := k.alerted
          active := k.active
          finish := k.finish
          server_id := k.server_id }
      else ex), true)

/-! ## C9: the key-expiry sweeper (src/services/keys.py, keys_control_task) -/

/-- Embeds get_days_hours_by_ts (src/utils/utils.py lines 10-15) on a
whole number of seconds. -/
def get_days_hours_by_ts (ts : Nat) : Nat × Nat × Nat :=
  (ts / 86400, (ts % 86400) / 3600, (ts % 3600) / 60)

/-- Panel operations the sweeper can issue. -/
inductive PanelOp where
  | turnOffUser (name : String)
  | deleteUser (name : String)
deriving DecidableEq, Repr

/-- Embeds one iteration of the loop body of keys_control_task
(src/services/keys.py lines 297-328) for a single key. Times are
seconds. Note the source converts days to hours with a factor of 60
(hours += days * 60). When finish is not in the past: alert when the
converted hour count lies in 1..24 and the key is not alerted, else
disable on the panel and persist active false when the hour count is
zero and the key is active. When finish is in the past and the converted
hour count is at least 24: disable on the panel only when the key is
active, delete from the panel, and delete the row. The first component
is the surviving row (none when deleted), the second the panel calls. -/
def keys_control_task_step (k : Key) (now : Int) : Option Key × List PanelOp :=
  if now ≤ k.finish then
    let dhm := get_days_hours_by_ts (k.finish - now).toNat
    let hours := dhm.2.1 + dhm.1 * 60
    if 1 ≤ hours ∧ hours ≤ 24 ∧ k.alerted = false then
      (some { k with alerted := true }, [])
    else if hours = 0 ∧ k.active = true then
      (some { k with active := false }, [PanelOp.turnOffUser k.name])
    else
      (some k, [])
  else
    let dhm := get_days_hours_by_ts (now - k.finish).toNat
    let hours := dhm.2.1 + dhm.1 * 60
    if 24 ≤ hours then
      (none,
        (if k.active then [PanelOp.turnOffUser k.name] else []) ++
          [PanelOp.deleteUser k.name])
    else
      (some k, [])

/-! ## Concrete instances used by the witnesses and counterexamples -/

/-- A paid_expired rule with a one-day offset, for C3. -/
def paid_expired_offset_rule : NotificationRule :=
  { id := 7, type := NotificationType.paid_expired, offset_days := some 1,
    offset_hours := none, is_active := true }

/-- A success payment without an issued key, referencing tariff 99, for C4. -/
def pC4w : Payment :=
  { id := 502, user_id := 42, tariff_id := 99, key_id := none,
    device := "iphone", promo := none, status := PaymentStatus.success,
    key_issued_at := none, created_at := 0 }

/-- A store holding only pC4w and no tariffs, for C4. -/
def stC4w : St := { payments := [pC4w], keys := [], tariffs := [] }

/-- A payment whose key was already issued, for C5. -/
def pC5w : Payment :=
  { id := 500, user_id := 42, tariff_id := 2, key_id := some 9,
    device := "iphone", promo := none, status := PaymentStatus.success,
    key_issued_at := some 5, created_at := 0 }

/-- A store holding only pC5w, for C5. -/
def stC5w : St := { payments := [pC5w], keys := [], tariffs := [] }

/-- A one-row schedule table with dedup_key a, for C6. -/
def rowsC6w : List ScheduleRow :=
  [{ user_id := 1, rule_id := 1, planned_at := 0, dedup_key := "a",
     status := SchedStatus.planned }]

/-- A template key record for the C8, C9 and C10 instances. -/
def baseKey : Key :=
  { id := 1, user_id := 2, server_id := 3, key := "u", device := "iphone",
    payment_id := none, active := true, alerted := false, start := 0,
    finish := 0, name := "k", is_test := false }

/-- An inactive, alerted key whose finish has passed, for C8. -/
def kC8w : Key := { baseKey with active := false, alerted := true, name := "kc" }

/-- An active unalerted key with exactly 24 hours remaining, for C9. -/
def kC9a : Key := { baseKey with finish := 86400, name := "ka" }

/-- An inactive key whose finish is exactly 24 hours in the past, for C9. -/
def kC9b : Key :=
  { baseKey with
    active := false
    alerted := true
    finish := -86400
    name := "kb" }

/-- An active unalerted key with two hours remaining, for the C9 witness. -/
def kC9w : Key := { baseKey with finish := 7200, name := "kw" }

/-- A key object whose id is absent from the store, for C10. -/
def kC10w : Key := { baseKey with id := 99 }

/-- A one-key store not containing id 99, for C10. -/
def keysC10w : List Key := [baseKey]

/-! ## Theorems -/

/-- C1: the claim says one pass of the pending-payments poll deletes a
pending payment that is unconfirmed and at least 30 minutes old. In the
code, that payment is instead handed to process_success_payment (the key
issue path) and the function returns; the delete branch repeats the same
condition and is unreachable, so no input ever produces deleteExpired. A
payment younger than 30 minutes is indeed left pending. -/
theorem C1_expired_pending_payment_not_deleted :
    process_pending_payment false (-1860) 0 = PendingAction.issueUnconfirmed ∧
    process_pending_payment false (-600) 0 = PendingAction.stillPending ∧
    ∀ (c : Bool) (created_at now : Int),
      process_pending_payment c created_at now ≠ PendingAction.deleteExpired := by
  refine ⟨by decide, by decide, ?_⟩
  intro c created_at now
  unfold process_pending_payment
  split
  · simp
  · split
    · simp
    · simp

/-- C2: the claim says a create_key call carrying a payment_id persists a
Key row recording that payment_id. In the code, add_new_key accepts no
payment_id keyword, so the call create_key makes raises TypeError, and
the row add_new_key itself constructs always leaves payment_id null. -/
theorem C2_add_new_key_drops_payment_id :
    py_kwcall_ok add_new_key_accepted_params create_key_passed_kwargs = false ∧
    ∀ (new_id user_id server_id : Nat) (key device : String) (finish : Int)
      (name : String) (is_test : Bool) (now : Int),
      (add_new_key new_id user_id server_id key device finish name is_test
          now).payment_id = none :=
  ⟨by decide, fun _ _ _ _ _ _ _ _ _ => rfl⟩

/-- C3: the claim says an active paid_expired rule with a positive offset
plans at finish plus the offset. _calc_planned_at_for_key plans the
expired types at finish itself, ignoring the offset _calc_offset would
give (here one day, 1440 minutes). -/
theorem C3_expired_rule_ignores_offset :
    calc_planned_at_for_key paid_expired_offset_rule 2880 0 = some 2880 ∧
    calc_offset paid_expired_offset_rule = 1440 ∧
    calc_planned_at_for_key paid_expired_offset_rule 2880 0 ≠
      some (2880 + calc_offset paid_expired_offset_rule) := by
  decide

/-- C8: the claim says prolonging an inactive key leaves it active. The
code computes finish as max of the old finish and now plus the tariff
days, clears alerted, but only re-assigns active when it is already
true, so an inactive key stays inactive; the last conjunct shows the
active flag is never changed for any key. -/
theorem C8_prolong_leaves_inactive_key_inactive :
    (prolong_key_update kC8w 100 30).finish = max kC8w.finish 100 + 30 * 86400 ∧
    (prolong_key_update kC8w 100 30).alerted = false ∧
    (prolong_key_update kC8w 100 30).active = false ∧
    ∀ (k : Key) (now add_days : Int),
      (prolong_key_update k now add_days).active = k.active := by
  refine ⟨by decide, by decide, by decide, ?_⟩
  intro k now add_days
  cases hk : k.active <;> simp [prolong_key_update, hk]

/-- C10: calling update_key with a key object whose id is not in the
store returns normally, writes nothing, and does not resynchronise
notification schedules (the Bool component is false). -/
theorem C10_update_key_missing_id_noop
    (keys : List Key) (k : Key)
    (h : ∀ ex ∈ keys, ex.id ≠ k.id) :
    update_key keys k = (keys, false) := by
  unfold update_key
  have hfind : keys.find? (fun ex => ex.id = k.id) = none := by
    rw [List.find?_eq_none]
    intro x hx
    simp [h x hx]
  rw [hfind]

/-- C10 witness: a store with one key of id 1 and an update for id 99. -/
theorem C10_update_key_missing_id_noop_witness :
    update_key keysC10w kC10w = (keysC10w, false) :=
  C10_update_key_missing_id_noop keysC10w kC10w (by decide)

/-- C5: the issue operation is idempotent: for a payment whose
key_issued_at is already set, process_success_payment returns at once
with the store unchanged and no outbound effects, so a second recovery
pass over an already-issued payment changes nothing. -/
theorem C5_issue_idempotent_when_key_issued
    (st : St) (p : Payment) (now t : Int)
    (h : p.key_issued_at = some t) :
    process_success_payment st p now = IssueResult.done st [] := by
  have hk : is_key_issued st p = true := by
    simp [is_key_issued, h]
  unfold process_success_payment
  simp [hk]

/-- C5 witness: a store with one already-issued payment. -/
theorem C5_issue_idempotent_witness :
    process_success_payment stC5w pC5w 0 = IssueResult.done stC5w [] :=
  C5_issue_idempotent_when_key_issued stC5w pC5w 0 5 (by decide)

/-- C7: host normalization maps 1.2.3.4:5 to https://1.2.3.4:5, leaves
http://x.y/z unchanged, and rejects an empty or unparsable host; with a
rejected host every panel request fails with the configuration
ValueError before any network request is recorded. -/
theorem C7_host_normalization :
    normalize_host (some "1.2.3.4:5") = some "https://1.2.3.4:5" ∧
    normalize_host (some "http://x.y/z") = some "http://x.y/z" ∧
    normalize_host (some "") = none ∧
    normalize_host (some "https://") = none ∧
    normalize_host none = none ∧
    ∀ path : String,
      x3_request (normalize_host (some "")) path =
        (Except.error "Server host is not configured", []) := by
  refine ⟨by decide, by decide, by decide, by decide, rfl, ?_⟩
  intro path
  have h : normalize_host (some "") = none := by decide
  rw [h]
  rfl

/-- Helper: a single upsert preserves dedup-key uniqueness. -/
theorem upsert_schedule_uniqueDedup (rows : List ScheduleRow)
    (h : uniqueDedup rows) (uid rid : Nat) (pat : Int) (dk : String) :
    uniqueDedup (upsert_schedule rows uid rid pat dk) := by
  unfold upsert_schedule
  split
  · exact h
  · next hany =>
    unfold uniqueDedup at h ⊢
    rw [List.pairwise_append]
    refine ⟨h, by simp, ?_⟩
    intro a ha b hb
    simp only [List.mem_singleton] at hb
    subst hb
    show a.dedup_key ≠ dk
    intro hcontra
    simp only [List.any_eq_true, not_exists, not_and] at hany
    exact hany a ha (decide_eq_true hcontra)

/-- Helper: a bulk upsert preserves dedup-key uniqueness. -/
theorem bulk_upsert_schedule_uniqueDedup (entries : List (Nat × Nat × Int × String))
    (rows : List ScheduleRow) (h : uniqueDedup rows) :
    uniqueDedup (bulk_upsert_schedule rows entries) := by
  induction entries generalizing rows with
  | nil => exact h
  | cons e t ih =>
    unfold bulk_upsert_schedule
    rw [List.foldl_cons]
    exact ih _ (upsert_schedule_uniqueDedup rows h e.1 e.2.1 e.2.2.1 e.2.2.2)

/-- C6: under the unique constraint on dedup_key the schedule table keeps
at most one row per dedup_key: the invariant is preserved by
upsert_schedule and bulk_upsert_schedule, and inserting a schedule whose
dedup_key already exists is a silent no-op that leaves the table exactly
as it was. -/
theorem C6_dedup_unique_and_silent_noop
    (rows : List ScheduleRow) (h : uniqueDedup rows) :
    (∀ (uid rid : Nat) (pat : Int) (dk : String),
      uniqueDedup (upsert_schedule rows uid rid pat dk)) ∧
    (∀ entries, uniqueDedup (bulk_upsert_schedule rows entries)) ∧
    (∀ (uid rid : Nat) (pat : Int) (dk : String),
      (rows.any fun row => row.dedup_key = dk) = true →
      upsert_schedule rows uid rid pat dk = rows ∧
      bulk_upsert_schedule rows [(uid, rid, pat, dk)] = rows) := by
  refine ⟨fun uid rid pat dk => upsert_schedule_uniqueDedup rows h uid rid pat dk,
    fun entries => bulk_upsert_schedule_uniqueDedup entries rows h,
    fun uid rid pat dk hany => ?_⟩
  have hup : upsert_schedule rows uid rid pat dk = rows := by
    unfold upsert_schedule
    rw [hany]
    simp
  refine ⟨hup, ?_⟩
  unfold bulk_upsert_schedule
  rw [List.foldl_cons, List.foldl_nil]
  exact hup

/-- C6 witness: a one-row table with dedup_key a stays unique after a
fresh insert, and re-inserting dedup_key a leaves it unchanged. -/
theorem C6_dedup_unique_and_silent_noop_witness :
    uniqueDedup (upsert_schedule rowsC6w 2 2 5 "b") ∧
    upsert_schedule rowsC6w 2 2 5 "a" = rowsC6w :=
  ⟨(C6_dedup_unique_and_silent_noop rowsC6w (by decide)).1 2 2 5 "b",
   ((C6_dedup_unique_and_silent_noop rowsC6w (by decide)).2.2 2 2 5 "a"
      (by decide)).1⟩

/-- C4: a success payment without an issued key, without a key linked by
payment_id, and whose tariff_id references no tariff, is marked error,
the operators are messaged, the function returns without touching the
keys table, every stored payment with this id ends up with status error,
and the recovery selection (status success and no key_issued_at) never
contains this payment id again. -/
theorem C4_missing_tariff_marks_error_and_stops_recovery
    (st : St) (p : Payment) (now : Int)
    (hrow : getPayment st p.id = some p)
    (hni : p.key_issued_at = none)
    (hnk : get_key_by_payment_id st.keys p.id = none)
    (hnt : get_tariff st p.tariff_id = none) :
    process_success_payment st p now =
      IssueResult.done (mark_payment_as_error st p.id "tariff not found")
        [Eff.adminMsg] ∧
    (mark_payment_as_error st p.id "tariff not found").keys = st.keys ∧
    (∀ q ∈ (mark_payment_as_error st p.id "tariff not found").payments,
      q.id = p.id → q.status = PaymentStatus.error) ∧
    (∀ q ∈ get_success_payments_without_key
        (mark_payment_as_error st p.id "tariff not found"), q.id ≠ p.id) := by
  have hkk : is_key_issued st p = false := by
    simp [is_key_issued, hrow, hni]
  refine ⟨?_, rfl, ?_, ?_⟩
  · cases hpk : p.key_id with
    | none => simp [process_success_payment, hkk, hnk, hnt, hpk]
    | some kid =>
      cases hgk : get_key_by_id st.keys kid with
      | none => simp [process_success_payment, hkk, hnk, hnt, hpk, hgk]
      | some k => simp [process_success_payment, hkk, hnk, hnt, hpk, hgk]
  · intro q hq hid
    unfold mark_payment_as_error at hq
    simp only [List.mem_map] at hq
    obtain ⟨r0, hr0, rfl⟩ := hq
    by_cases hcase : r0.id = p.id
    · simp [hcase]
    · exfalso
      apply hcase
      simp only [if_neg hcase] at hid
      exact hid
  · intro q hq hid
    unfold get_success_payments_without_key mark_payment_as_error at hq
    simp only [List.mem_filter, List.mem_map, decide_eq_true_eq] at hq
    obtain ⟨⟨r0, hr0, rfl⟩, hpred⟩ := hq
    by_cases hcase : r0.id = p.id
    · simp only [if_pos hcase] at hpred
      exact absurd hpred.1 (by decide)
    · simp only [if_neg hcase] at hid
      exact hcase hid

/-- C4 witness: a store holding one success payment id 502 with tariff 99
and an empty tariffs table. -/
theorem C4_missing_tariff_witness :
    process_success_payment stC4w pC4w 0 =
      IssueResult.done (mark_payment_as_error stC4w pC4w.id "tariff not found")
        [Eff.adminMsg] ∧
    (mark_payment_as_error stC4w pC4w.id "tariff not found").keys = stC4w.keys ∧
    (∀ q ∈ (mark_payment_as_error stC4w pC4w.id "tariff not found").payments,
      q.id = pC4w.id → q.status = PaymentStatus.error) ∧
    (∀ q ∈ get_success_payments_without_key
        (mark_payment_as_error stC4w pC4w.id "tariff not found"),
      q.id ≠ pC4w.id) :=
  C4_missing_tariff_marks_error_and_stops_recovery stC4w pC4w 0
    (by decide) (by decide) (by decide) (by decide)

/-- C9 counterexample: the claim as stated fails at two concrete inputs.
First, a key with exactly 24 hours remaining (remaining time within the
claimed inclusive 1h..24h window), active and not alerted, is left
completely unchanged: the source converts days to hours with a factor of
60, so 24h remaining becomes 60 and misses the 1..24 test. Second, an
inactive key whose finish is exactly 24 hours in the past is deleted
without the claimed panel disable call: the disable is guarded by the
active flag. -/
theorem C9_sweeper_counterexample :
    kC9a.finish - 0 = 86400 ∧ kC9a.alerted = false ∧ kC9a.active = true ∧
    keys_control_task_step kC9a 0 = (some kC9a, []) ∧
    kC9b.active = false ∧ 0 - kC9b.finish = 86400 ∧
    keys_control_task_step kC9b 0 = (none, [PanelOp.deleteUser "kb"]) := by
  decide

/-- C9 amended: one pass of the sweeper, for every key: if finish is not
in the past and the remaining time is at least 1 hour and strictly less
than 24 hours and the key is not alerted, it marks the key alerted; if
the remaining time reaches 0 hours and the key is active, it disables
the client on the panel and sets active to false; if finish is in the
past by 24 hours or more, it disables the client on the panel when the
key is still active, deletes the client from the panel, and deletes the
key row. -/
theorem C9_sweeper_amended (k : Key) (now : Int) :
    (now ≤ k.finish → 3600 ≤ k.finish - now → k.finish - now < 86400 →
      k.alerted = false →
      keys_control_task_step k now = (some { k with alerted := true }, [])) ∧
    (now ≤ k.finish → k.finish - now < 3600 → k.active = true →
      keys_control_task_step k now =
        (some { k with active := false }, [PanelOp.turnOffUser k.name])) ∧
    (k.finish + 86400 ≤ now →
      keys_control_task_step k now =
        (none,
          (if k.active then [PanelOp.turnOffUser k.name] else []) ++
            [PanelOp.deleteUser k.name])) := by
  refine ⟨?_, ?_, ?_⟩
  · intro h1 h2 h3 h4
    have hb1 : 3600 ≤ (k.finish - now).toNat := by omega
    have hb2 : (k.finish - now).toNat < 86400 := by omega
    simp only [keys_control_task_step, get_days_hours_by_ts, if_pos h1]
    rw [if_pos ⟨by omega, by omega, h4⟩]
  · intro h1 h2 h3
    have hb : (k.finish - now).toNat < 3600 := by omega
    simp only [keys_control_task_step, get_days_hours_by_ts, if_pos h1]
    rw [if_neg (fun hc => by omega), if_pos ⟨by omega, h3⟩]
  · intro h1
    have hno : ¬ now ≤ k.finish := by omega
    have hb : 86400 ≤ (now - k.finish).toNat := by omega
    simp only [keys_control_task_step, get_days_hours_by_ts, if_neg hno]
    rw [if_pos (by omega)]

/-- C9 amended witness: an active unalerted key with two hours remaining
is marked alerted. -/
theorem C9_sweeper_amended_witness :
    keys_control_task_step kC9w 0 = (some { kC9w with alerted := true }, []) :=
  (C9_sweeper_amended kC9w 0).1 (by decide) (by decide) (by decide) (by decide)

end Corsa
